import Mathlib

/-!
Verification of the first-aid chat application.

The frontend sources (`frontend/src/App.tsx`, `frontend/src/components/ChatUI.tsx`,
`frontend/src/api.ts`) are embedded directly.  The backend pipeline
(`backend/app/...`) is not part of the available sources (only its
documentation is), so it is modelled from the specification, with each such
definition marked `Modelled from the spec`.
-/

namespace FirstAid

/-! ## Basic string operations

JavaScript's `String.prototype.trim` and `toLowerCase`, and a substring test,
modelled on lists of characters so everything evaluates by kernel reduction. -/

/-- JavaScript `s.trim()`: drop leading and trailing whitespace. -/
def trimChars (s : String) : String :=
  ⟨((s.data.dropWhile Char.isWhitespace).reverse.dropWhile Char.isWhitespace).reverse⟩

/-- JavaScript `s.toLowerCase()` (ASCII case folding suffices here). -/
def lowerStr (s : String) : String :=
  ⟨s.data.map Char.toLower⟩

/-- Whether the character list `pat` occurs at the head of `l`. -/
def matchesAt : List Char → List Char → Bool
  | [], _ => true
  | _ :: _, [] => false
  | a :: as, b :: bs => a == b && matchesAt as bs

/-- Whether `pat` occurs as a contiguous substring of `s`. -/
def containsSub (s pat : String) : Bool :=
  s.data.tails.any (fun t => matchesAt pat.data t)

/-- Collapse runs of spaces into single spaces (`prevWS` records whether the
previous character emitted was a space). -/
def squeeze : Bool → List Char → List Char
  | _, [] => []
  | prevWS, c :: rest =>
    if c = ' ' then
      if prevWS then squeeze true rest else ' ' :: squeeze true rest
    else c :: squeeze false rest

/-! ## Chat data model shared by frontend and backend -/

/-- Message roles, from `frontend/src/api.ts` (`ChatRole`). -/
inductive Role
  | user
  | assistant
  | system
deriving DecidableEq, Repr

/-- A chat turn, from `frontend/src/api.ts` (`ChatMessage`); the spec calls the
same shape `ChatTurn`. -/
structure ChatMessage where
  role : Role
  content : String
deriving DecidableEq, Repr

/-- The spec's name for a conversation turn. -/
abbrev ChatTurn := ChatMessage

/-! ## Frontend: primary `App.tsx` component

`DisplayMessage` extends `ChatMessage` with an id and timestamp.  The source
draws ids from `Math.random` and timestamps from `Date.now`; both are modelled
as naturals drawn from a `fresh` counter carried in the component state. -/

/-- `DisplayMessage` from `App.tsx` (id and timestamp abstracted to `Nat`). -/
structure DisplayMessage where
  role : Role
  content : String
  id : Nat
  timestamp : Nat
deriving DecidableEq, Repr

/-- `createDisplayMessage` from `App.tsx`: wrap a `ChatMessage` with a fresh id
and a timestamp. -/
def createDisplayMessage (m : ChatMessage) (fresh : Nat) : DisplayMessage :=
  { role := m.role, content := m.content, id := fresh, timestamp := fresh }

/-- The `({role, content}) => ({role, content})` projection used by `onSend`. -/
def dmView (d : DisplayMessage) : ChatMessage :=
  { role := d.role, content := d.content }

/-- The `findIndex` + `splice(matchIndex, 1)` step of `reconcileMessages`:
remove the first pool entry whose role and content match `m`, returning it
together with the remaining pool. -/
def spliceMatch (m : ChatMessage) : List DisplayMessage → Option (DisplayMessage × List DisplayMessage)
  | [] => none
  | c :: rest =>
    if c.role == m.role && c.content == m.content then some (c, rest)
    else
      match spliceMatch m rest with
      | some (d, rest2) => some (d, c :: rest2)
      | none => none

/-- `reconcileMessages` from `App.tsx`: map each incoming message either to the
first matching existing display message (consuming it from the pool) or to a
freshly created display message. -/
def reconcileMessages (existing : List DisplayMessage) (incoming : List ChatMessage) (fresh : Nat) : List DisplayMessage :=
  match incoming with
  | [] => []
  | m :: rest =>
    match spliceMatch m existing with
    | some (d, pool2) => d :: reconcileMessages pool2 rest fresh
    | none => createDisplayMessage m fresh :: reconcileMessages existing rest (fresh + 1)

/-- The built-in demo conversation `defaultConversation` from `App.tsx`,
shown while no message has been sent (ids and timestamps abstracted). -/
def defaultConversation : List DisplayMessage :=
  [ { role := .assistant,
      content := "I\x27m your First-Aid Guide. Who needs help and where are you?",
      id := 0, timestamp := 0 },
    { role := .user,
      content := "Adult with a cut on the forearm. We\x27re at the park.",
      id := 1, timestamp := 1 },
    { role := .assistant,
      content := "Apply direct pressure with clean cloth for 5–10 minutes. Elevate the arm if possible. I\x27ll show nearby clinics on the map.",
      id := 2, timestamp := 2 },
    { role := .user,
      content := "CPR steps",
      id := 3, timestamp := 3 } ]

/-- State of the primary `App` component: the text box, the display list, the
loading flag, the error banner, plus the fresh-id counter. -/
structure AppState where
  input : String
  messages : List DisplayMessage
  loading : Bool
  error : Option String
  fresh : Nat
deriving DecidableEq, Repr

/-- `activeMessages` from `App.tsx`: what the conversation panel renders. -/
def activeMessages (s : AppState) : List DisplayMessage :=
  if s.messages.isEmpty then defaultConversation else s.messages

/-- The error banner text set by every `onSend` catch branch. -/
def sendFailureText : String :=
  "Failed to get a response from the assistant. Please try again."

/-- Result of one `onSend` call on the primary `App`: the new component state
and the body (`messages` list) posted to `/api/chat/continue`, `none` when no
request was made. -/
structure SendOutcome where
  state : AppState
  request : Option (List ChatMessage)
deriving DecidableEq, Repr

/-- `onSend` from the primary `App.tsx`, with the server's answer to
`continueChat` supplied as `resp` (`.error` models a rejected promise). -/
def onSendPrimary (s : AppState) (resp : Except Unit (List ChatMessage)) : SendOutcome :=
  let trimmed := trimChars s.input
  if trimmed = "" then { state := s, request := none }
  else
    let userChatMessage : ChatMessage := { role := .user, content := trimmed }
    let history := s.messages.map dmView ++ [userChatMessage]
    let userDisplayMessage := createDisplayMessage userChatMessage s.fresh
    let optimistic := s.messages ++ [userDisplayMessage]
    match resp with
    | .ok serverMessages =>
        { state := { input := "",
                     messages := reconcileMessages optimistic serverMessages (s.fresh + 1),
                     loading := false, error := none,
                     fresh := s.fresh + 1 + serverMessages.length },
          request := some history }
    | .error _ =>
        { state := { input := s.input,
                     messages := optimistic.filter (fun m => m.id != userDisplayMessage.id),
                     loading := false, error := some sendFailureText,
                     fresh := s.fresh + 1 },
          request := some history }

/-! ## Frontend: `ChatUI.tsx` and the second `App.tsx` variant

Both keep a plain `ChatMessage[]` state and have textually identical `onSend`
handlers. -/

/-- State of the `ChatUI` component (and of the second `App` variant). -/
structure ChatState where
  input : String
  messages : List ChatMessage
  loading : Bool
  error : Option String
deriving DecidableEq, Repr

/-- Result of one `onSend` call on `ChatUI` or the second `App` variant. -/
structure ChatSendOutcome where
  state : ChatState
  request : Option (List ChatMessage)
deriving DecidableEq, Repr

/-- `onSend` from `components/ChatUI.tsx`. -/
def onSendChatUI (s : ChatState) (resp : Except Unit (List ChatMessage)) : ChatSendOutcome :=
  if trimChars s.input = "" then { state := s, request := none }
  else
    let userMsg : ChatMessage := { role := .user, content := s.input }
    let next := s.messages ++ [userMsg]
    match resp with
    | .ok data =>
        { state := { input := "", messages := data, loading := false, error := none },
          request := some next }
    | .error _ =>
        { state := { input := "", messages := next, loading := false, error := some sendFailureText },
          request := some next }

/-- `onSend` from the second `App.tsx` variant (same body as `ChatUI`). -/
def onSendAppVariant (s : ChatState) (resp : Except Unit (List ChatMessage)) : ChatSendOutcome :=
  if trimChars s.input = "" then { state := s, request := none }
  else
    let userMsg : ChatMessage := { role := .user, content := s.input }
    let next := s.messages ++ [userMsg]
    match resp with
    | .ok data =>
        { state := { input := "", messages := data, loading := false, error := none },
          request := some next }
    | .error _ =>
        { state := { input := "", messages := next, loading := false, error := some sendFailureText },
          request := some next }

/-! ## Backend pipeline, modelled from the spec

The backend package `backend/app` (agents, services, `main.py`,
`guardrails.yaml`) is not among the available sources — only its
documentation is — so every definition below is modelled from the
specification's description of the pipeline. -/

/-- Modelled from the spec: the guardrail policy document
(`backend/app/guardrails.yaml` is missing from the sources) — disallowed
topics, deny phrases, and diagnosis-language patterns. -/
structure Policy where
  topics : List String
  denyPhrases : List String
  diagnosisPatterns : List String
deriving DecidableEq, Repr

/-- Modelled from the spec: a sample policy standing in for the missing
`guardrails.yaml`, loaded once at process start. -/
def policy : Policy :=
  { topics := ["diagnose", "prescribe", "drug dosage"],
    denyPhrases := ["ignore all previous instructions", "this replaces professional care"],
    diagnosisPatterns := ["you have", "you are suffering from"] }

/-- ASCII control characters (code below 32, or DEL). -/
def isControlChar (c : Char) : Bool :=
  c.toNat < 32 || c.toNat == 127

/-- Modelled from the spec: the Sanitizer's normalization — control characters
are stripped (mapped to spaces), runs of whitespace collapsed, and the result
trimmed. -/
def cleanTextOf (s : String) : String :=
  trimChars ⟨squeeze true (s.data.map (fun c => if isControlChar c then ' ' else c))⟩

/-- Modelled from the spec: the Sanitizer's output shape. -/
structure SanitizeResult where
  cleanText : String
  inScope : Bool
  matchedTopic : Option String
deriving DecidableEq, Repr

/-- Modelled from the spec: `security_agent.protect` (missing from the
sources) — normalize the raw text and check it against the configured
disallowed topics by substring match. -/
def protect (p : Policy) (raw : String) : SanitizeResult :=
  let ct := cleanTextOf raw
  match p.topics.find? (fun t => containsSub (lowerStr ct) (lowerStr t)) with
  | some t => { cleanText := ct, inScope := false, matchedTopic := some t }
  | none => { cleanText := ct, inScope := true, matchedTopic := none }

/-- Modelled from the spec: the allow-listed emergency categories plus
`unknown`. -/
inductive Category
  | bleeding
  | burn
  | choking
  | fracture
  | unknown
deriving DecidableEq, Repr

/-- Human-readable label of a category. -/
def categoryLabel : Category → String
  | .bleeding => "bleeding"
  | .burn => "burn"
  | .choking => "choking"
  | .fracture => "fracture"
  | .unknown => "unknown"

/-- Which path produced a triage result. -/
inductive TriageSource
  | model
  | fallback
deriving DecidableEq, Repr

/-- Modelled from the spec: `TriageResult` — category, severity 0–5, matched
keywords, and the path that produced it. -/
structure TriageResult where
  category : Category
  severity : Nat
  keywords : List String
  source : TriageSource
deriving DecidableEq, Repr

/-- Modelled from the spec: the keyword → severity-weight table used by the
fallback classifier (`emergency_classifier.py` is missing from the sources). -/
def keywordTable : List (Category × List (String × Nat)) :=
  [ (.bleeding, [("bleed", 5), ("blood", 4), ("cut", 3)]),
    (.burn, [("burn", 4), ("scald", 4)]),
    (.choking, [("choking", 5), ("cannot breathe", 5)]),
    (.fracture, [("fracture", 3), ("broken bone", 3), ("sprain", 2)]) ]

/-- Modelled from the spec: rule-based fallback classification — for each
category take the keywords contained in the text, score it by the maximum
matched weight, and keep the best-scoring category (`unknown` with severity 0
when nothing matches). -/
def fallbackClassify (text : String) : TriageResult :=
  let t := lowerStr text
  let pick := keywordTable.foldl
    (fun (acc : Category × Nat × List String) p =>
      let ms := p.2.filter (fun kw => containsSub t kw.1)
      let w := ms.foldl (fun m kw => max m kw.2) 0
      if acc.2.1 < w then (p.1, w, ms.map Prod.fst) else acc)
    (Category.unknown, 0, ([] : List String))
  { category := pick.1, severity := pick.2.1, keywords := pick.2.2, source := .fallback }

/-- Modelled from the spec: `RetrievedDocument` (score as a rational). -/
structure RetrievedDocument where
  content : String
  score : ℚ
deriving DecidableEq, Repr

/-- Modelled from the spec: `ToolResult` from the mocked MCP adapter. -/
structure ToolResult where
  emergencyNumber : String
  mapsHint : String
deriving DecidableEq, Repr

/-- Modelled from the spec: the external capabilities the pipeline may call;
`none` models an unconfigured, failing, or timed-out dependency. -/
structure Env where
  categorize : String → Option (Category × Nat × List String)
  retrieve : Category → String → Option (List RetrievedDocument)
  generate : String → Option (List String)
  tool : Category → Option ToolResult

/-- The environment in which every external dependency fails. -/
def envFail : Env :=
  { categorize := fun _ => none,
    retrieve := fun _ _ => none,
    generate := fun _ => none,
    tool := fun _ => none }

/-- Modelled from the spec: `emergency_classifier.classify` — primary path via
the categorization provider (severity clamped to 5), keyword fallback on any
failure; never raises. -/
def classify (env : Env) (text : String) : TriageResult :=
  match env.categorize text with
  | some (cat, sev, kws) =>
    { category := cat, severity := min sev 5, keywords := kws, source := .model }
  | none => fallbackClassify text

/-- Modelled from the spec: the ToolAdapter's generic answer when the lookup
fails — it must never throw. -/
def genericToolResult : ToolResult :=
  { emergencyNumber := "call local emergency services",
    mapsHint := "search for nearby hospitals" }

/-- Modelled from the spec: `mcp_server` lookups behind the ToolAdapter
interface. -/
def toolLookup (env : Env) (cat : Category) : ToolResult :=
  match env.tool cat with
  | some r => r
  | none => genericToolResult

/-- Modelled from the spec: minimum similarity score for retrieval. -/
def minScore : ℚ := 1 / 2

/-- Modelled from the spec: retrieval — top matches above the score
threshold; any failure yields an empty document list, not an error. -/
def retrieveDocs (env : Env) (cat : Category) (query : String) : List RetrievedDocument :=
  match env.retrieve cat query with
  | some docs => docs.filter (fun d => decide (minScore ≤ d.score))
  | none => []

/-- Grounding context assembled from the retrieved documents. -/
def buildContext (docs : List RetrievedDocument) : String :=
  String.intercalate " " (docs.map (fun d => d.content))

/-- Which path produced an instruction set. -/
inductive GenSource
  | generated
  | fallback
deriving DecidableEq, Repr

/-- Modelled from the spec: `InstructionSet` — summary, ordered steps, and the
path that produced them. -/
structure InstructionSet where
  summary : String
  steps : List String
  source : GenSource
deriving DecidableEq, Repr

/-- Modelled from the spec: the maximum step count. -/
def maxSteps : Nat := 8

/-- Modelled from the spec: the static per-category fallback templates of the
instruction agent (`instruction_agent.py` is missing from the sources); one
safe default per known category plus a generic default for `unknown`. -/
def fallbackInstructions : Category → InstructionSet
  | .bleeding =>
    { summary := "Bleeding first aid",
      steps := [ "Apply firm direct pressure with a clean cloth.",
                 "Elevate the injured area if possible.",
                 "Call local emergency services if bleeding does not stop." ],
      source := .fallback }
  | .burn =>
    { summary := "Burn first aid",
      steps := [ "Cool the burn under running water for twenty minutes.",
                 "Cover the burn loosely with a clean dressing.",
                 "Call local emergency services for severe burns." ],
      source := .fallback }
  | .choking =>
    { summary := "Choking first aid",
      steps := [ "Encourage the person to keep coughing.",
                 "Give up to five firm back blows between the shoulder blades.",
                 "Call local emergency services if the airway stays blocked." ],
      source := .fallback }
  | .fracture =>
    { summary := "Fracture first aid",
      steps := [ "Keep the injured limb still and supported.",
                 "Apply a cold pack wrapped in cloth.",
                 "Seek medical care promptly." ],
      source := .fallback }
  | .unknown =>
    { summary := "General first aid",
      steps := [ "Keep the person calm and still.",
                 "Call local emergency services for guidance.",
                 "Monitor breathing until help arrives." ],
      source := .fallback }

/-- Modelled from the spec: the generation prompt assembled from category,
grounding context, and the user message. -/
def generationPrompt (cat : Category) (ctx userMsg : String) : String :=
  "Provide numbered, imperative, non-diagnostic first aid steps. Category: "
    ++ categoryLabel cat ++ ". Context: " ++ ctx ++ ". Message: " ++ userMsg

/-- Modelled from the spec: parsing of the provider's answer — trim each line,
discard empty lines, cap at the maximum step count. -/
def parsedSteps (raw : List String) : List String :=
  ((raw.map trimChars).filter (fun s => s != "")).take maxSteps

/-- Modelled from the spec: the Generator — chat-completion path when
configured, the static template when the capability is missing, the call
fails, or parsing yields zero steps. -/
def generateInstructions (env : Env) (cat : Category) (userMsg ctx : String) : InstructionSet :=
  match env.generate (generationPrompt cat ctx userMsg) with
  | some raw =>
    let steps := parsedSteps raw
    if steps.isEmpty then fallbackInstructions cat
    else { summary := categoryLabel cat ++ " guidance", steps := steps, source := .generated }
  | none => fallbackInstructions cat

/-- A single guardrail violation: the rule and the matched text. -/
structure Violation where
  rule : String
  matchedText : String
deriving DecidableEq, Repr

/-- Modelled from the spec: `GuardrailVerdict`. -/
structure GuardrailVerdict where
  passed : Bool
  violations : List Violation
deriving DecidableEq, Repr

/-- Modelled from the spec: scan one text against the deny phrases and the
diagnosis-language patterns, returning all matches. -/
def scanText (p : Policy) (text : String) : List Violation :=
  let t := lowerStr text
  (p.denyPhrases.filter (fun d => containsSub t (lowerStr d))).map
      (fun d => { rule := "deny_phrase", matchedText := d })
    ++ (p.diagnosisPatterns.filter (fun d => containsSub t (lowerStr d))).map
      (fun d => { rule := "diagnosis_language", matchedText := d })

/-- Modelled from the spec: `verification_agent.verify` — scan summary and
every step; pure function of text and policy. -/
def verify (p : Policy) (i : InstructionSet) : GuardrailVerdict :=
  let vs := scanText p i.summary ++ (i.steps.map (scanText p)).flatten
  { passed := vs.isEmpty, violations := vs }

/-- Risk levels. -/
inductive Risk
  | low
  | medium
  | high
  | critical
deriving DecidableEq, Repr

/-- Numeric height of a risk level, for comparisons. -/
def Risk.toNat : Risk → Nat
  | .low => 0
  | .medium => 1
  | .high => 2
  | .critical => 3

/-- One level up; `critical` is only ever reached this way. -/
def escalateRisk : Risk → Risk
  | .low => .medium
  | .medium => .high
  | .high => .critical
  | .critical => .critical

/-- Modelled from the spec: base risk from triage severity alone (monotonic;
tops out at `high` so that a guardrail failure always escalates by exactly one
level). -/
def baseRisk (sev : Nat) : Risk :=
  if sev ≤ 1 then .low else if sev ≤ 3 then .medium else .high

/-- Modelled from the spec: `RiskConfidence`. -/
structure RiskConfidence where
  risk : Risk
  confidence : ℚ
deriving DecidableEq, Repr

/-- Modelled from the spec: `score_risk_confidence`
(`risk_confidence.py` is missing from the sources) — risk monotonic in
severity, escalated one level on guardrail failure; confidence reduced by
fallback triage and by guardrail failure. -/
def score (triage : TriageResult) (verdict : GuardrailVerdict) : RiskConfidence :=
  let base := baseRisk triage.severity
  { risk := if verdict.passed then base else escalateRisk base,
    confidence :=
      (if triage.source = .model then (9 : ℚ) / 10 else (6 : ℚ) / 10)
        - (if verdict.passed then 0 else (2 : ℚ) / 10) }

/-- Modelled from the spec: the fixed recovery phrase set of the
RecoveryDetector (`recovery_agent.py` is missing from the sources). -/
def recoveryPhrases : List String :=
  ["it stopped", "im okay", "i am okay", "okay now", "feeling better", "all good now"]

/-- Whether a turn's text contains a recovery phrase. -/
def matchesRecovery (text : String) : Bool :=
  recoveryPhrases.any (fun p => containsSub (lowerStr (cleanTextOf text)) p)

/-- Modelled from the spec: the severity threshold that activates the
emergency state. -/
def severityThreshold : Nat := 4

/-- Modelled from the spec: one transition of the `emergencyActive` state
machine — inactive becomes active when severity reaches the threshold; active
becomes inactive exactly when a recovery phrase was matched. -/
def emergencyStep (active : Bool) (sev : Nat) (recov : Bool) : Bool :=
  if active then !recov else decide (severityThreshold ≤ sev)

/-- Walk the conversation, carrying the active flag and the previous turn's
content (the 2-turn recovery lookback window). -/
def emergencyScan : Bool → Option String → List ChatTurn → Bool
  | active, _, [] => active
  | active, prev, t :: rest =>
    let recov := matchesRecovery t.content || (prev.map matchesRecovery).getD false
    let sev := if t.role == Role.user then (fallbackClassify (cleanTextOf t.content)).severity else 0
    emergencyScan (emergencyStep active sev recov) (some t.content) rest

/-- Modelled from the spec: `emergencyActive` recomputed each turn from the
caller-supplied history. -/
def emergencyActiveFrom (history : List ChatTurn) : Bool :=
  emergencyScan false none history

/-- Modelled from the spec: `PipelineResult`. -/
structure PipelineResult where
  triage : TriageResult
  tool : ToolResult
  instructions : InstructionSet
  verdict : GuardrailVerdict
  risk : RiskConfidence
  degraded : Bool
  emergencyActive : Bool
deriving DecidableEq, Repr

/-- Modelled from the spec: the fixed refusal instruction template returned
when the Sanitizer rejects the message. -/
def refusalTemplate : InstructionSet :=
  { summary := "I can only help with first aid guidance.",
    steps := [ "Please ask about first aid for an injury or a medical emergency.",
               "Call local emergency services if someone is in danger." ],
    source := .fallback }

/-- Modelled from the spec: the fixed refusal result — `degraded = false`
because refusal is policy, not failure. -/
def refusalResult : PipelineResult :=
  { triage := { category := .unknown, severity := 0, keywords := [], source := .fallback },
    tool := genericToolResult,
    instructions := refusalTemplate,
    verdict := { passed := true, violations := [] },
    risk := { risk := .low, confidence := 1 / 2 },
    degraded := false,
    emergencyActive := false }

/-- Modelled from the spec: the Orchestrator's per-turn sequencing — sanitize,
short-circuit on out-of-scope input, otherwise classify, look up tools,
retrieve, generate, verify, remediate on guardrail failure, score risk, and
set `degraded` whenever any fallback path was taken. -/
def runPipeline (env : Env) (p : Policy) (history : List ChatTurn) (msg : String) : PipelineResult :=
  let san := protect p msg
  if san.inScope then
    let triage := classify env san.cleanText
    let tool := toolLookup env triage.category
    let docs := retrieveDocs env triage.category san.cleanText
    let gen := generateInstructions env triage.category san.cleanText (buildContext docs)
    let verdict := verify p gen
    let finalInstructions := if verdict.passed then gen else fallbackInstructions triage.category
    { triage := triage,
      tool := tool,
      instructions := finalInstructions,
      verdict := verdict,
      risk := score triage verdict,
      degraded := (triage.source == TriageSource.fallback)
        || (gen.source == GenSource.fallback)
        || !verdict.passed
        || (env.tool triage.category).isNone,
      emergencyActive := emergencyActiveFrom history }
  else refusalResult

/-- Modelled from the spec: the error taxonomy entry surfaced for malformed
requests. -/
inductive ValidationError
  | emptyMessage
deriving DecidableEq, Repr

/-- Modelled from the spec: the single-shot `chat` operation. -/
def chat (env : Env) (message : String) : Except ValidationError PipelineResult :=
  if trimChars message = "" then .error .emptyMessage
  else .ok (runPipeline env policy [{ role := .user, content := message }] message)

/-- Content of the last user turn of a history, if any. -/
def lastUserContent (history : List ChatTurn) : Option String :=
  (history.reverse.find? (fun t => t.role == Role.user)).map (fun t => t.content)

/-- Prose rendering of a risk level. -/
def riskLabel : Risk → String
  | .low => "low"
  | .medium => "medium"
  | .high => "high"
  | .critical => "critical"

/-- Modelled from the spec: `_compose_assistant_message` — prose rendering of
summary, steps, and a risk disclosure. -/
def composeAssistantMessage (r : PipelineResult) : String :=
  r.instructions.summary ++ ": " ++ String.intercalate " " r.instructions.steps
    ++ " (risk: " ++ riskLabel r.risk.risk ++ ")"

/-- Modelled from the spec: the `chatContinue` operation — run the pipeline on
the last user turn and append the composed assistant turn. -/
def chatContinue (env : Env) (history : List ChatTurn) :
    Except ValidationError (List ChatTurn × PipelineResult) :=
  match lastUserContent history with
  | none => .error .emptyMessage
  | some msg =>
    if trimChars msg = "" then .error .emptyMessage
    else
      let r := runPipeline env policy history msg
      .ok (history ++ [{ role := .assistant, content := composeAssistantMessage r }], r)

/-! ## Helper lemmas about the frontend -/

theorem dmView_create (m : ChatMessage) (fresh : Nat) :
    dmView (createDisplayMessage m fresh) = m := rfl

theorem spliceMatch_view {m : ChatMessage} :
    ∀ {pool : List DisplayMessage} {d : DisplayMessage} {rest : List DisplayMessage},
      spliceMatch m pool = some (d, rest) → dmView d = m := by
  intro pool
  induction pool with
  | nil => intro d rest h; simp [spliceMatch] at h
  | cons c cs ih =>
    intro d rest h
    by_cases hc : (c.role == m.role && c.content == m.content) = true
    · rw [spliceMatch, if_pos hc] at h
      simp only [Option.some.injEq, Prod.mk.injEq] at h
      obtain ⟨hd, _⟩ := h
      simp only [Bool.and_eq_true, beq_iff_eq] at hc
      subst hd
      calc dmView c = { role := m.role, content := m.content } := by
            rw [dmView, hc.1, hc.2]
        _ = m := rfl
    · rw [spliceMatch, if_neg hc] at h
      cases hs : spliceMatch m cs with
      | none => rw [hs] at h; simp at h
      | some pr =>
        obtain ⟨d2, rest2⟩ := pr
        rw [hs] at h
        simp only [Option.some.injEq, Prod.mk.injEq] at h
        obtain ⟨hd, _⟩ := h
        subst hd
        exact ih hs

theorem reconcile_view : ∀ (incoming : List ChatMessage) (existing : List DisplayMessage) (fresh : Nat),
    (reconcileMessages existing incoming fresh).map dmView = incoming := by
  intro incoming
  induction incoming with
  | nil => intro existing fresh; rfl
  | cons m rest ih =>
    intro existing fresh
    rw [reconcileMessages]
    cases hs : spliceMatch m existing with
    | none => simp [List.map_cons, ih, dmView_create]
    | some pr =>
      obtain ⟨d, pool2⟩ := pr
      simp [List.map_cons, ih, spliceMatch_view hs]

theorem rollback_filter (msgs : List DisplayMessage) (d : DisplayMessage)
    (h : ∀ x ∈ msgs, x.id ≠ d.id) :
    (msgs ++ [d]).filter (fun m => m.id != d.id) = msgs := by
  rw [List.filter_append]
  have h1 : msgs.filter (fun m => m.id != d.id) = msgs := by
    rw [List.filter_eq_self]
    intro x hx
    simpa using h x hx
  have h2 : [d].filter (fun m => m.id != d.id) = [] := by simp
  rw [h1, h2, List.append_nil]

theorem activeMessages_of_nonempty {s : AppState} (h : s.messages ≠ []) :
    activeMessages s = s.messages := by
  rw [activeMessages, if_neg]
  simpa using h

/-! ## Claim theorems about the frontend -/

/-- C8: for every existing display list and every incoming list,
`reconcileMessages existing incoming` has the same length as `incoming` and
its i-th element carries exactly the role and content of the i-th incoming
message, in order — reconciliation never drops, reorders, duplicates, or
alters the server-supplied turns. -/
theorem reconcile_preserves_incoming (existing : List DisplayMessage)
    (incoming : List ChatMessage) (fresh : Nat) :
    (reconcileMessages existing incoming fresh).length = incoming.length ∧
    (reconcileMessages existing incoming fresh).map dmView = incoming := by
  refine ⟨?_, reconcile_view incoming existing fresh⟩
  calc (reconcileMessages existing incoming fresh).length
      = ((reconcileMessages existing incoming fresh).map dmView).length := by
        rw [List.length_map]
    _ = incoming.length := by rw [reconcile_view]

/-- C6 counterexample: with no message sent yet (`messages = []`), the primary
`App` displays the built-in demo conversation, but `onSend` builds the posted
history from the empty `messages` state and trims the entered text — so the
history is not the displayed turns followed by a turn with the entered text. -/
theorem history_mismatch_default_conversation :
    (onSendPrimary { input := "  help  ", messages := [], loading := false, error := none, fresh := 0 }
        (.error ())).request ≠
      some ((activeMessages { input := "  help  ", messages := [], loading := false, error := none, fresh := 0 }).map dmView
        ++ [{ role := Role.user, content := "  help  " }]) := by decide

/-- C6 (amended): for every non-empty trimmed input, the history passed to
`continueChat` (and posted as the request body) is the component's `messages`
state as (role, content) turns followed by exactly one new user turn — whose
content is the trimmed entered text in the primary `App` and the raw entered
text in `ChatUI` and the second `App` variant; the `messages` state coincides
with the displayed conversation whenever it is non-empty. -/
theorem onSend_history_from_state (s : AppState) (cs vs : ChatState)
    (respA respC respV : Except Unit (List ChatMessage))
    (hA : trimChars s.input ≠ "") (hC : trimChars cs.input ≠ "") (hV : trimChars vs.input ≠ "") :
    (onSendPrimary s respA).request
        = some (s.messages.map dmView ++ [{ role := Role.user, content := trimChars s.input }]) ∧
    (s.messages ≠ [] → (activeMessages s).map dmView = s.messages.map dmView) ∧
    (onSendChatUI cs respC).request
        = some (cs.messages ++ [{ role := Role.user, content := cs.input }]) ∧
    (onSendAppVariant vs respV).request
        = some (vs.messages ++ [{ role := Role.user, content := vs.input }]) := by
  refine ⟨?_, ?_, ?_, ?_⟩
  · simp only [onSendPrimary]
    rw [if_neg hA]
    cases respA <;> rfl
  · intro hne
    rw [activeMessages_of_nonempty hne]
  · simp only [onSendChatUI]
    rw [if_neg hC]
    cases respC <;> rfl
  · simp only [onSendAppVariant]
    rw [if_neg hV]
    cases respV <;> rfl

/-- C6 witness: the amended statement evaluated at a concrete state. -/
theorem onSend_history_from_state_witness :
    (onSendPrimary { input := " help ", messages := [], loading := false, error := none, fresh := 0 }
        (.error ())).request = some [{ role := Role.user, content := "help" }] :=
  ((onSend_history_from_state
      { input := " help ", messages := [], loading := false, error := none, fresh := 0 }
      { input := "hi", messages := [], loading := false, error := none }
      { input := "hi", messages := [], loading := false, error := none }
      (.error ()) (.error ()) (.error ())
      (by decide) (by decide) (by decide)).1).trans (by decide)

/-- C7: on empty or whitespace-only input, all three `onSend` handlers return
before doing anything: no request is posted and the state (message list,
error, loading flag) is unchanged. -/
theorem blank_input_noop (s : AppState) (cs vs : ChatState)
    (ra rc rv : Except Unit (List ChatMessage))
    (hA : trimChars s.input = "") (hC : trimChars cs.input = "") (hV : trimChars vs.input = "") :
    onSendPrimary s ra = { state := s, request := none } ∧
    onSendChatUI cs rc = { state := cs, request := none } ∧
    onSendAppVariant vs rv = { state := vs, request := none } := by
  refine ⟨?_, ?_, ?_⟩
  · simp only [onSendPrimary]
    rw [if_pos hA]
  · simp only [onSendChatUI]
    rw [if_pos hC]
  · simp only [onSendAppVariant]
    rw [if_pos hV]

/-- C7 witness: whitespace-only input on all three handlers. -/
theorem blank_input_noop_witness :
    onSendPrimary { input := "   ", messages := [], loading := false, error := none, fresh := 0 } (.ok [])
      = { state := { input := "   ", messages := [], loading := false, error := none, fresh := 0 },
          request := none } :=
  (blank_input_noop
      { input := "   ", messages := [], loading := false, error := none, fresh := 0 }
      { input := "", messages := [], loading := false, error := none }
      { input := " ", messages := [], loading := false, error := none }
      (.ok []) (.ok []) (.ok [])
      (by decide) (by decide) (by decide)).1

/-- C9: when `continueChat` rejects, the primary `App`'s `onSend` restores the
message list (and hence the displayed conversation) to its pre-send value,
leaves the typed input unchanged, sets the error banner, and resets loading
to `false`.  `hid` is the id-freshness invariant of the `fresh` counter. -/
theorem error_rollback_primary (s : AppState)
    (h : trimChars s.input ≠ "") (hid : ∀ m ∈ s.messages, m.id < s.fresh) :
    (onSendPrimary s (.error ())).state.messages = s.messages ∧
    activeMessages (onSendPrimary s (.error ())).state = activeMessages s ∧
    (onSendPrimary s (.error ())).state.input = s.input ∧
    (onSendPrimary s (.error ())).state.error = some sendFailureText ∧
    (onSendPrimary s (.error ())).state.loading = false := by
  have hstate : (onSendPrimary s (.error ())).state
      = { input := s.input, messages := s.messages, loading := false,
          error := some sendFailureText, fresh := s.fresh + 1 } := by
    simp only [onSendPrimary]
    rw [if_neg h]
    simp only [AppState.mk.injEq, and_true, true_and]
    exact rollback_filter s.messages _ (fun x hx => Nat.ne_of_lt (hid x hx))
  refine ⟨?_, ?_, ?_, ?_, ?_⟩
  · rw [hstate]
  · rw [hstate]; rfl
  · rw [hstate]
  · rw [hstate]
  · rw [hstate]

/-- C9 witness: a concrete state with one prior message. -/
theorem error_rollback_primary_witness :
    (onSendPrimary
        { input := " hi ",
          messages := [{ role := Role.user, content := "x", id := 0, timestamp := 0 }],
          loading := false, error := none, fresh := 1 } (.error ())).state.messages
      = [{ role := Role.user, content := "x", id := 0, timestamp := 0 }] :=
  (error_rollback_primary
      { input := " hi ",
        messages := [{ role := Role.user, content := "x", id := 0, timestamp := 0 }],
        loading := false, error := none, fresh := 1 }
      (by decide) (by decide)).1

/-- C10 counterexample: on a rejected response, `ChatUI`'s `onSend` does not
restore the conversation to its pre-send value — the optimistically appended
user turn stays. -/
theorem chatui_error_keeps_optimistic :
    (onSendChatUI { input := "help", messages := [], loading := false, error := none }
        (.error ())).state.messages ≠ ([] : List ChatMessage) := by decide

/-- C10 (amended): on every successful response all three senders leave the
conversation state equal, as a (role, content) sequence, to exactly the
server's messages list; on a rejected response the primary `App` restores its
pre-send messages, while `ChatUI` and the second `App` variant keep the
optimistically appended user turn. -/
theorem send_outcomes_by_variant (s : AppState) (cs vs : ChatState)
    (serverMsgs : List ChatMessage)
    (hA : trimChars s.input ≠ "") (hC : trimChars cs.input ≠ "") (hV : trimChars vs.input ≠ "")
    (hid : ∀ m ∈ s.messages, m.id < s.fresh) :
    ((onSendPrimary s (.ok serverMsgs)).state.messages.map dmView = serverMsgs ∧
      (onSendChatUI cs (.ok serverMsgs)).state.messages = serverMsgs ∧
      (onSendAppVariant vs (.ok serverMsgs)).state.messages = serverMsgs) ∧
    ((onSendPrimary s (.error ())).state.messages = s.messages ∧
      (onSendChatUI cs (.error ())).state.messages
          = cs.messages ++ [{ role := Role.user, content := cs.input }] ∧
      (onSendAppVariant vs (.error ())).state.messages
          = vs.messages ++ [{ role := Role.user, content := vs.input }]) := by
  refine ⟨⟨?_, ?_, ?_⟩, ⟨?_, ?_, ?_⟩⟩
  · have hmsg : (onSendPrimary s (.ok serverMsgs)).state.messages
        = reconcileMessages
            (s.messages ++ [createDisplayMessage { role := .user, content := trimChars s.input } s.fresh])
            serverMsgs (s.fresh + 1) := by
      simp only [onSendPrimary]
      rw [if_neg hA]
    rw [hmsg, reconcile_view]
  · simp only [onSendChatUI]
    rw [if_neg hC]
  · simp only [onSendAppVariant]
    rw [if_neg hV]
  · simp only [onSendPrimary]
    rw [if_neg hA]
    exact rollback_filter s.messages _ (fun x hx => Nat.ne_of_lt (hid x hx))
  · simp only [onSendChatUI]
    rw [if_neg hC]
  · simp only [onSendAppVariant]
    rw [if_neg hV]

/-- C10 witness: a concrete successful exchange through `ChatUI`. -/
theorem send_outcomes_by_variant_witness :
    (onSendChatUI { input := "help", messages := [], loading := false, error := none }
        (.ok [{ role := Role.user, content := "help" },
              { role := Role.assistant, content := "Apply pressure." }])).state.messages
      = [{ role := Role.user, content := "help" },
         { role := Role.assistant, content := "Apply pressure." }] :=
  ((send_outcomes_by_variant
      { input := "ok", messages := [], loading := false, error := none, fresh := 0 }
      { input := "help", messages := [], loading := false, error := none }
      { input := "help", messages := [], loading := false, error := none }
      [{ role := Role.user, content := "help" },
       { role := Role.assistant, content := "Apply pressure." }]
      (by decide) (by decide) (by decide) (by decide)).1).2.1

/-! ## Helper lemmas about the pipeline model -/

theorem fallbackInstructions_bounds (cat : Category) :
    (fallbackInstructions cat).steps ≠ [] ∧ (fallbackInstructions cat).steps.length ≤ maxSteps := by
  cases cat <;> exact ⟨by decide, by decide⟩

theorem fallbackInstructions_source (cat : Category) :
    (fallbackInstructions cat).source = GenSource.fallback := by
  cases cat <;> rfl

theorem generateInstructions_bounds (env : Env) (cat : Category) (userMsg ctx : String) :
    (generateInstructions env cat userMsg ctx).steps ≠ [] ∧
    (generateInstructions env cat userMsg ctx).steps.length ≤ maxSteps := by
  cases hg : env.generate (generationPrompt cat ctx userMsg) with
  | none =>
    simp only [generateInstructions, hg]
    exact fallbackInstructions_bounds cat
  | some raw =>
    simp only [generateInstructions, hg]
    by_cases hx : (parsedSteps raw).isEmpty = true
    · rw [if_pos hx]
      exact fallbackInstructions_bounds cat
    · rw [if_neg hx]
      refine ⟨?_, ?_⟩
      · show parsedSteps raw ≠ []
        intro hnil
        exact hx (by rw [hnil]; rfl)
      · show (parsedSteps raw).length ≤ maxSteps
        rw [parsedSteps]
        exact List.length_take_le maxSteps _

theorem remediation_bounds (b : Bool) (g : InstructionSet) (c : Category)
    (hg : g.steps ≠ [] ∧ g.steps.length ≤ maxSteps) :
    (if b = true then g else fallbackInstructions c).steps ≠ [] ∧
    (if b = true then g else fallbackInstructions c).steps.length ≤ maxSteps := by
  cases b
  · rw [if_neg (by decide)]
    exact fallbackInstructions_bounds c
  · rw [if_pos rfl]
    exact hg

theorem runPipeline_bounds (env : Env) (p : Policy) (history : List ChatTurn) (msg : String) :
    (runPipeline env p history msg).instructions.steps ≠ [] ∧
    (runPipeline env p history msg).instructions.steps.length ≤ maxSteps := by
  by_cases hin : (protect p msg).inScope = true
  · rw [runPipeline]
    dsimp only
    rw [if_pos hin]
    exact remediation_bounds _ _ _ (generateInstructions_bounds env _ _ _)
  · rw [runPipeline]
    dsimp only
    rw [if_neg hin]
    exact ⟨by decide, by decide⟩

theorem runPipeline_envFail (p : Policy) (history : List ChatTurn) (msg : String)
    (hin : (protect p msg).inScope = true) :
    (runPipeline envFail p history msg).degraded = true ∧
    (runPipeline envFail p history msg).instructions.source = GenSource.fallback := by
  rw [runPipeline]
  dsimp only
  rw [if_pos hin]
  refine ⟨rfl, ?_⟩
  show (if (verify p (generateInstructions envFail _ _ _)).passed = true
      then generateInstructions envFail _ _ _
      else fallbackInstructions _).source = GenSource.fallback
  by_cases hv : (verify p (generateInstructions envFail (classify envFail (protect p msg).cleanText).category (protect p msg).cleanText (buildContext (retrieveDocs envFail (classify envFail (protect p msg).cleanText).category (protect p msg).cleanText)))).passed = true
  · rw [if_pos hv]
    exact fallbackInstructions_source _
  · rw [if_neg hv]
    exact fallbackInstructions_source _

theorem protect_scope (p : Policy) (raw : String) :
    (protect p raw).inScope = !(protect p raw).matchedTopic.isSome := by
  rw [protect]
  cases p.topics.find? (fun t => containsSub (lowerStr (cleanTextOf raw)) (lowerStr t)) <;> rfl

/-- The assistant turn `chatContinue` appends for a given history and last
user message. -/
def assistantTurn (e : Env) (history : List ChatTurn) (msg : String) : ChatTurn :=
  { role := .assistant, content := composeAssistantMessage (runPipeline e policy history msg) }

theorem chatContinue_ok (e : Env) (history : List ChatTurn) (msg : String)
    (hlast : lastUserContent history = some msg) (hmsg : trimChars msg ≠ "") :
    chatContinue e history
      = .ok (history ++ [assistantTurn e history msg], runPipeline e policy history msg) := by
  simp only [chatContinue, hlast]
  rw [if_neg hmsg]
  rfl

/-! ## Claim theorems about the pipeline model -/

/-- C1: for every non-empty (well-formed) message, `chat` and `chatContinue`
return a `PipelineResult` (never an unhandled fault), with a non-empty
instruction list; and when every external dependency fails, the result is
degraded with the generic fallback instruction set. -/
theorem chat_never_faults (env : Env) (msg : String) (hmsg : trimChars msg ≠ "") :
    (∃ r, chat env msg = .ok r ∧ r.instructions.steps ≠ []) ∧
    ((protect policy msg).inScope = true →
      ∃ r, chat envFail msg = .ok r ∧ r.degraded = true ∧ r.instructions.steps ≠ [] ∧
        r.instructions.source = GenSource.fallback) ∧
    (∀ history : List ChatTurn, lastUserContent history = some msg →
      (∃ r, chatContinue env history = .ok r ∧ r.2.instructions.steps ≠ []) ∧
      ((protect policy msg).inScope = true →
        ∃ r, chatContinue envFail history = .ok r ∧ r.2.degraded = true ∧
          r.2.instructions.steps ≠ [])) := by
  have hchat : ∀ e : Env,
      chat e msg = .ok (runPipeline e policy [{ role := .user, content := msg }] msg) :=
    fun e => by rw [chat, if_neg hmsg]
  have hcc : ∀ e : Env, ∀ history : List ChatTurn, lastUserContent history = some msg →
      chatContinue e history
        = .ok (history ++ [assistantTurn e history msg], runPipeline e policy history msg) :=
    fun e history hlast => chatContinue_ok e history msg hlast hmsg
  refine ⟨⟨_, hchat env, (runPipeline_bounds env policy _ msg).1⟩, ?_, ?_⟩
  · intro hin
    exact ⟨_, hchat envFail, (runPipeline_envFail policy _ msg hin).1,
      (runPipeline_bounds envFail policy _ msg).1, (runPipeline_envFail policy _ msg hin).2⟩
  · intro history hlast
    refine ⟨⟨_, hcc env history hlast, (runPipeline_bounds env policy history msg).1⟩, ?_⟩
    intro hin
    exact ⟨_, hcc envFail history hlast, (runPipeline_envFail policy history msg hin).1,
      (runPipeline_bounds envFail policy history msg).1⟩

/-- C1 witness: the fully-failing environment on a concrete bleeding report. -/
theorem chat_never_faults_witness :
    ∃ r, chat envFail "I am bleeding from my arm" = .ok r ∧ r.degraded = true ∧
      r.instructions.steps ≠ [] ∧ r.instructions.source = GenSource.fallback :=
  (chat_never_faults envFail "I am bleeding from my arm" (by decide)).2.1 (by decide)

/-- C2: for every message whose sanitized text matches a configured disallowed
topic, the Orchestrator short-circuits: for every environment the result is
the fixed refusal (so Classifier, Retriever and Generator are never
consulted), the instruction set is the refusal template, and
`degraded = false`. -/
theorem refusal_short_circuit (env : Env) (msg : String)
    (hmsg : trimChars msg ≠ "") (htopic : (protect policy msg).matchedTopic.isSome = true) :
    chat env msg = .ok refusalResult ∧
    refusalResult.instructions = refusalTemplate ∧
    refusalResult.degraded = false := by
  have hin : ¬((protect policy msg).inScope = true) := by
    rw [protect_scope, htopic]
    decide
  refine ⟨?_, rfl, rfl⟩
  rw [chat, if_neg hmsg, runPipeline]
  dsimp only
  rw [if_neg hin]

/-- C2 witness: a concrete message matching the disallowed topic `diagnose`,
evaluated in the fully-failing environment (any environment gives the same
refusal). -/
theorem refusal_short_circuit_witness :
    chat envFail "please diagnose my rash" = .ok refusalResult :=
  (refusal_short_circuit envFail "please diagnose my rash" (by decide) (by decide)).1

/-- C3: every instruction set the Generator produces — through the generated
path or the fallback path, for every category including `unknown` — has a
non-empty step list of length at most the fixed maximum. -/
theorem generator_steps_bounded (env : Env) (cat : Category) (userMsg ctx : String) :
    ((generateInstructions env cat userMsg ctx).steps ≠ [] ∧
      (generateInstructions env cat userMsg ctx).steps.length ≤ maxSteps) ∧
    (∀ c : Category, (fallbackInstructions c).steps ≠ [] ∧
      (fallbackInstructions c).steps.length ≤ maxSteps) :=
  ⟨generateInstructions_bounds env cat userMsg ctx, fallbackInstructions_bounds⟩

theorem baseRisk_mono {a b : Nat} (h : a ≤ b) :
    Risk.toNat (baseRisk a) ≤ Risk.toNat (baseRisk b) := by
  rw [baseRisk, baseRisk]
  split_ifs <;> first | decide | (exfalso; omega)

theorem escalateRisk_mono {r1 r2 : Risk} (h : Risk.toNat r1 ≤ Risk.toNat r2) :
    Risk.toNat (escalateRisk r1) ≤ Risk.toNat (escalateRisk r2) := by
  revert h
  cases r1 <;> cases r2 <;> decide

theorem escalateRisk_succ {r : Risk} (h : r ≠ .critical) :
    Risk.toNat (escalateRisk r) = Risk.toNat r + 1 := by
  cases r
  · rfl
  · rfl
  · rfl
  · exact absurd rfl h

theorem baseRisk_ne_critical (sev : Nat) : baseRisk sev ≠ .critical := by
  rw [baseRisk]
  split_ifs <;> decide

theorem score_risk_eq (t : TriageResult) (v : GuardrailVerdict) :
    (score t v).risk = if v.passed = true then baseRisk t.severity
      else escalateRisk (baseRisk t.severity) := rfl

/-- C4: the risk level is monotonic in triage severity for a fixed verdict,
and for a fixed triage a failed guardrail verdict yields a risk level exactly
one level above the one a passing verdict yields. -/
theorem risk_monotone_and_escalates (t1 t2 t : TriageResult) (v vp vf : GuardrailVerdict)
    (hsev : t1.severity ≤ t2.severity) (hp : vp.passed = true) (hf : vf.passed = false) :
    Risk.toNat (score t1 v).risk ≤ Risk.toNat (score t2 v).risk ∧
    Risk.toNat (score t vf).risk = Risk.toNat (score t vp).risk + 1 := by
  constructor
  · rw [score_risk_eq, score_risk_eq]
    cases hv : v.passed
    · rw [if_neg (by decide), if_neg (by decide)]
      exact escalateRisk_mono (baseRisk_mono hsev)
    · rw [if_pos rfl, if_pos rfl]
      exact baseRisk_mono hsev
  · rw [score_risk_eq, score_risk_eq, if_neg (by rw [hf]; decide), if_pos hp]
    exact escalateRisk_succ (baseRisk_ne_critical t.severity)

/-- C4 witness: severity 1, passing vs failing verdict. -/
theorem risk_monotone_and_escalates_witness :
    Risk.toNat (score { category := Category.bleeding, severity := 1, keywords := [], source := TriageSource.model }
        { passed := false, violations := [] }).risk
      = Risk.toNat (score { category := Category.bleeding, severity := 1, keywords := [], source := TriageSource.model }
          { passed := true, violations := [] }).risk + 1 :=
  (risk_monotone_and_escalates
      { category := Category.bleeding, severity := 1, keywords := [], source := TriageSource.model }
      { category := Category.bleeding, severity := 5, keywords := [], source := TriageSource.model }
      { category := Category.bleeding, severity := 1, keywords := [], source := TriageSource.model }
      { passed := true, violations := [] }
      { passed := true, violations := [] }
      { passed := false, violations := [] }
      (by decide) rfl rfl).2

/-- Turn 1 of the spec's recovery scenario. -/
def scenarioTurn1History : List ChatTurn :=
  [{ role := .user, content := "I am bleeding from my arm" }]

/-- Turn 2 of the spec's recovery scenario: the messages returned by turn 1
followed by the user's recovery report. -/
def scenarioTurn2History : List ChatTurn :=
  match chatContinue envFail scenarioTurn1History with
  | .ok (ms, _) => ms ++ [{ role := .user, content := "it stopped, I\x27m okay now" }]
  | .error _ => [{ role := .user, content := "it stopped, I\x27m okay now" }]

/-- C5: the `emergencyActive` flag follows the specified step relation — from
inactive it becomes active exactly when triage severity reaches the
threshold, from active it becomes inactive exactly when a recovery phrase is
matched in the 2-turn window — and in the two-turn scenario (severe bleeding
report, then a recovery report) the flag ends `false` with the risk reset to
`low`. -/
theorem emergency_state_machine :
    (∀ sev recov, emergencyStep false sev recov = decide (severityThreshold ≤ sev)) ∧
    (∀ sev, emergencyStep true sev true = false) ∧
    (∀ sev, emergencyStep true sev false = true) ∧
    emergencyActiveFrom scenarioTurn1History = true ∧
    (chatContinue envFail scenarioTurn1History).toOption.map
        (fun r => r.2.emergencyActive) = some true ∧
    (chatContinue envFail scenarioTurn2History).toOption.map
        (fun r => r.2.emergencyActive) = some false ∧
    (chatContinue envFail scenarioTurn2History).toOption.map
        (fun r => r.2.risk.risk) = some Risk.low :=
  ⟨fun _ _ => rfl, fun _ => rfl, fun _ => rfl, by decide, by rfl, by rfl, by rfl⟩

end FirstAid
